import Mathlib

set_option autoImplicit false

/-!
Shallow embedding of `src/net/lib/ConnectionToCore.ts`.

The controller's mutable fields become a `CoreState` record, and each method
becomes a state-passing function.  All asynchronous awaits (the transport
connect, the lifecycle hooks, the combined send/response race of
`sendRequest`) are resolved by an `Env` record that fixes the outcome of each
awaited external step, giving the sequential (non-interleaved) semantics of
one call running to completion on the cooperative scheduler.  Externally
visible actions (transport calls, emitted events, log lines, hook
invocations) are collected in a trace of `Effect`s.

`PendingMessages` (imported by the controller but not part of the provided
sources) is modelled from the spec, section 4.1; `DisconnectedError` and the
transport interface are likewise modelled from the spec, sections 6 and 7.
-/

namespace ConnectionToCore

/-- A JavaScript `Error` as this code observes it: its `name`, the expando
`isDisconnecting` marker read and deleted by `onResponse`, the host identity
a `DisconnectedError` carries, and whether the object is an
`instanceof CanceledPromiseError` (prototype-chain fact, independent of the
name string). -/
structure JsError where
  name : String
  message : String := ""
  isDisconnecting : Bool := false
  host : Option String := none
  isCanceledPromiseError : Bool := false
deriving DecidableEq

/-- Result of an awaited asynchronous step: fulfilled with a value or
rejected with an error. -/
inductive JsResult (α : Type) where
  | ok (v : α)
  | err (e : JsError)
deriving DecidableEq

/-- Modelled from the spec: `DisconnectedError` (remote/transport
unavailable), carrying the transport's host identity.  The class lives in
`src/net/errors/DisconnectedError`, which is not among the provided
sources. -/
def DisconnectedError (host : String) : JsError :=
  { name := "DisconnectedError", host := some host }

/-- How a pending registry entry was settled. -/
inductive Settlement where
  | resolved (v : Option String)
  | rejected (e : JsError)
deriving DecidableEq

/-- One outstanding entry of the pending-request registry. -/
structure PendingEntry where
  id : Nat
  timeoutMs : Option Nat := none
  bypassesConnectionCheck : Bool := false
deriving DecidableEq

/-- Modelled from the spec, section 4.1: the pending-request registry
(`PendingMessages`, imported by the controller but not among the provided
sources).  `pending` holds the live entries, `settledLog` records every
settlement in order. -/
structure PendingMessages where
  nextId : Nat := 1
  pending : List PendingEntry := []
  settledLog : List (Nat × Settlement) := []
deriving DecidableEq

def PendingMessages.isPending (r : PendingMessages) (id : Nat) : Bool :=
  r.pending.any (fun p => p.id == id)

/-- `create(timeoutMs?, bypassesConnectionCheck)`: allocate a fresh id and
store a pending entry.  Returns the id together with the updated registry. -/
def PendingMessages.create (r : PendingMessages) (timeoutMs : Option Nat)
    (bypass : Bool) : Nat × PendingMessages :=
  (r.nextId,
   { r with
      nextId := r.nextId + 1
      pending := r.pending ++ [{ id := r.nextId, timeoutMs := timeoutMs,
                                 bypassesConnectionCheck := bypass }] })

/-- `resolve(id, value)`: settle the entry; silently ignored when the id is
unknown or already settled. -/
def PendingMessages.resolve (r : PendingMessages) (id : Nat)
    (v : Option String) : PendingMessages :=
  if r.isPending id then
    { r with
        pending := r.pending.filter (fun p => p.id ≠ id)
        settledLog := r.settledLog ++ [(id, Settlement.resolved v)] }
  else r

/-- `reject(id, error)`: settle the entry with failure; same no-op rule as
`resolve`. -/
def PendingMessages.reject (r : PendingMessages) (id : Nat)
    (e : JsError) : PendingMessages :=
  if r.isPending id then
    { r with
        pending := r.pending.filter (fun p => p.id ≠ id)
        settledLog := r.settledLog ++ [(id, Settlement.rejected e)] }
  else r

/-- `delete(id)`: remove an entry without settling it. -/
def PendingMessages.delete (r : PendingMessages) (id : Nat) : PendingMessages :=
  { r with pending := r.pending.filter (fun p => p.id ≠ id) }

/-- `cancel(error)`: settle every pending entry with `error`, then clear. -/
def PendingMessages.cancel (r : PendingMessages) (e : JsError) : PendingMessages :=
  { r with
      pending := []
      settledLog := r.settledLog ++
        r.pending.map (fun p => (p.id, Settlement.rejected e)) }

/-- First association for a numeric id in an association list. -/
def lookupId {β : Type} (l : List (Nat × β)) (id : Nat) : Option β :=
  match l with
  | [] => none
  | (k, v) :: rest => if k = id then some v else lookupId rest id

/-- Settlement state of one `Resolvable` (the future backing a lifecycle
action's outcome). -/
inductive ResolvableState where
  | resolved
  | rejected (e : JsError)
deriving DecidableEq

/-- `IConnectAction` from the source: one in-progress connect or disconnect
attempt.  The `resolvable` is represented by `resolvableId`, an index into
the state's settlement table. -/
structure IConnectAction where
  isCallingHook : Bool := false
  hookMessageId : Option Nat := none
  startTime : Nat
  isAutomatic : Bool := false
  resolvableId : Nat
  error : Option JsError := none
deriving DecidableEq

/-- Externally visible actions of the controller, in program order. -/
inductive Effect where
  | transportConnect (timeoutMs : Option Nat)
  | transportDisconnect
  | transportSend (messageId : Nat)
  | emitConnected
  | emitDisconnected
  | emitEvent
  | callAfterConnectFn
  | callBeforeDisconnectFn
  | callAfterDisconnectHook
  | logStats (event : String)
  | logError (event : String)
deriving DecidableEq

/-- The controller's mutable fields.  `minimumAutoReconnectMillis = none`
models a subclass overriding the static `MinimumAutoReconnectMillis` with
`NaN`; the class default is `some 1000`.  `resolvables` records the
settlement of each action resolvable (a `Resolvable` settles at most once:
later settlements are no-ops). -/
structure CoreState where
  connectAction : Option IConnectAction := none
  disconnectAction : Option IConnectAction := none
  autoReconnect : Bool := true
  pendingMessages : PendingMessages := {}
  didCallConnectionTerminated : Bool := false
  lastDisconnectDate : Option Nat := none
  transportHost : String := ""
  minimumAutoReconnectMillis : Option Nat := some 1000
  nextResolvableId : Nat := 0
  resolvables : List (Nat × ResolvableState) := []
deriving DecidableEq

/-- Settle a resolvable; no-op if that resolvable already settled. -/
def CoreState.settleResolvable (s : CoreState) (rid : Nat)
    (st : ResolvableState) : CoreState :=
  if (lookupId s.resolvables rid).isSome then s
  else { s with resolvables := s.resolvables ++ [(rid, st)] }

/-- Outcomes fixed for the awaited external steps of one call: the transport
connect, each configured lifecycle hook (`none` = hook not configured), and
the combined `Promise.all([registry promise, transport send])` await of
`sendRequest`. -/
structure Env where
  transportConnect : JsResult Unit := .ok ()
  afterConnectFn : Option (JsResult Unit) := none
  beforeDisconnectFn : Option (JsResult Unit) := none
  afterDisconnectHook : Option (JsResult Unit) := none
  requestOutcome : JsResult (Option String) := .ok none
deriving DecidableEq

/-- Payload of a response message: `responseId` plus a `data` field holding
either a success value (possibly `null`, written `none`) or an `Error`. -/
inductive MsgData where
  | value (v : Option String)
  | error (e : JsError)
deriving DecidableEq

structure ResponsePayload where
  responseId : Nat
  data : MsgData
deriving DecidableEq

/-- An inbound transport message; field presence (`'responseId' in payload`)
is modelled by `Option.isSome`. -/
structure InboundMessage where
  responseId : Option Nat := none
  listenerId : Option Nat := none
  eventType : Option String := none
  data : MsgData := .value none
deriving DecidableEq

def isBrowserLaunchError (error : JsError) : Bool :=
  error.name == "BrowserLaunchError" || error.name == "DependenciesMissingError"

/-- `onResponse(message)`: normalize an error payload, then settle the
registry entry.  The source first computes `isDisconnected` (mid-disconnect,
or the error's name is `SessionClosedOrMissingError`, or the error is marked
`isDisconnecting`), deletes the `isDisconnecting` expando from the error,
and replaces the error with a fresh `DisconnectedError` unless it is a
browser-launch/dependencies error. -/
def onResponse (s : CoreState) (message : ResponsePayload) : CoreState :=
  let id := message.responseId
  match message.data with
  | .error e =>
      let isDisconnected := s.disconnectAction.isSome
        || e.name == "SessionClosedOrMissingError"
        || e.isDisconnecting
      let cleared := { e with isDisconnecting := false }
      let responseError :=
        if isDisconnected && !isBrowserLaunchError cleared then
          DisconnectedError s.transportHost
        else cleared
      { s with pendingMessages := s.pendingMessages.reject id responseError }
  | .value v =>
      { s with pendingMessages := s.pendingMessages.resolve id v }

/-- `onEvent(event)`: re-emit on the event surface. -/
def onEvent (s : CoreState) : CoreState × List Effect :=
  (s, [Effect.emitEvent])

/-- `onMessage(payload)`: classify an inbound message by field presence. -/
def onMessage (s : CoreState) (m : InboundMessage) : CoreState × List Effect :=
  match m.responseId with
  | some id => (onResponse s { responseId := id, data := m.data }, [])
  | none =>
      if m.listenerId.isSome || m.eventType.isSome then onEvent s
      else (s, [])

/-- Stage of `onConnectionTerminated`: `if (this.connectAction?.hookMessageId)`
— force-settle the connect action's tagged hook request via `onResponse`,
with a `DisconnectedError` when the connect was not automatic and a `null`
success when it was. -/
def settleConnectHookRequest (s : CoreState) : CoreState :=
  match s.connectAction with
  | some c =>
      match c.hookMessageId with
      | some id =>
          let d : MsgData :=
            if !c.isAutomatic then .error (DisconnectedError s.transportHost)
            else .value none
          onResponse s { responseId := id, data := d }
      | none => s
  | none => s

/-- Stage of `onConnectionTerminated`:
`if (this.disconnectAction?.hookMessageId)` — force-settle the disconnect
action's tagged hook request with a `null` success. -/
def settleDisconnectHookRequest (s : CoreState) : CoreState :=
  match s.disconnectAction with
  | some d =>
      match d.hookMessageId with
      | some id => onResponse s { responseId := id, data := .value none }
      | none => s
  | none => s

/-- `onConnectionTerminated()`: idempotent teardown.  Records the disconnect
time, emits `disconnected`, force-settles a tagged connect-hook request
(error when not automatic, `null` success when automatic), clears the
connect action, force-settles a tagged disconnect-hook request with `null`,
cancels every remaining pending entry, then awaits
`hooks.afterDisconnectHook?.()` with no surrounding try/catch, so a hook
rejection propagates as the function's own rejection. -/
def onConnectionTerminated (s : CoreState) (env : Env) (now : Nat) :
    CoreState × List Effect × JsResult Unit :=
  if s.didCallConnectionTerminated then (s, [], .ok ())
  else
    let s1 := { s with lastDisconnectDate := some now,
                       didCallConnectionTerminated := true }
    let s2 := settleConnectHookRequest s1
    let s3 := { s2 with connectAction := none }
    let s4 := settleDisconnectHookRequest s3
    let s5 := { s4 with pendingMessages :=
                  s4.pendingMessages.cancel (DisconnectedError s4.transportHost) }
    match env.afterDisconnectHook with
    | none => (s5, [Effect.emitDisconnected], .ok ())
    | some (.ok _) =>
        (s5, [Effect.emitDisconnected, Effect.callAfterDisconnectHook], .ok ())
    | some (.err e) =>
        (s5, [Effect.emitDisconnected, Effect.callAfterDisconnectHook], .err e)

/-- `afterConnectHook()`: skipped when a disconnect action exists, when no
connect action exists, or when the connect resolvable already settled;
otherwise runs `hooks.afterConnectFn` with `isCallingHook` set for the
duration (reset in a finally), propagating a hook rejection. -/
def afterConnectHook (s : CoreState) (env : Env) :
    CoreState × List Effect × JsResult Unit :=
  if s.disconnectAction.isSome then (s, [], .ok ())
  else
    match s.connectAction with
    | none => (s, [], .ok ())
    | some connectAction =>
        if (lookupId s.resolvables connectAction.resolvableId).isSome then
          (s, [], .ok ())
        else
          let res :=
            match env.afterConnectFn with
            | none => ([], JsResult.ok ())
            | some (.ok _) => ([Effect.callAfterConnectFn], JsResult.ok ())
            | some (.err e) => ([Effect.callAfterConnectFn], JsResult.err e)
          let done : IConnectAction := { connectAction with isCallingHook := false }
          ({ s with connectAction := some done }, res.1, res.2)

/-- `beforeDisconnectHook()`: runs `hooks.beforeDisconnectFn` with
`isCallingHook` set for the duration; a hook rejection is caught and logged,
never propagated. -/
def beforeDisconnectHook (s : CoreState) (env : Env) :
    CoreState × List Effect :=
  match s.disconnectAction with
  | none => (s, [])
  | some disconnectAction =>
      let tr :=
        match env.beforeDisconnectFn with
        | none => []
        | some (.ok _) => [Effect.callBeforeDisconnectFn]
        | some (.err _) => [Effect.callBeforeDisconnectFn,
                            Effect.logError "Error in beforeDisconnect hook"]
      let done : IConnectAction := { disconnectAction with isCallingHook := false }
      ({ s with disconnectAction := some done }, tr)

structure ConnectOptions where
  timeoutMs : Option Nat := none
  isAutoConnect : Option Bool := none
  shouldAutoReconnect : Option Bool := none
deriving DecidableEq

/-- What a `connect()` call hands back to its caller: `voidReturn` for the
early return taken while a disconnect hook is executing, otherwise the
promise of the (joined or fresh) connect action's resolvable. -/
inductive ConnectReturn where
  | voidReturn
  | promiseOf (resolvableId : Nat)
deriving DecidableEq

/-- `connect(options)`: early-return while a disconnect hook is executing;
join a live connect action; otherwise record `shouldAutoReconnect`, create a
fresh action, clear the disconnect action, connect the transport, run the
after-connect hook, and resolve — any failure clears the connect action and
rejects the resolvable.  The function itself never throws (full
try/catch). -/
def connect (s : CoreState) (options : ConnectOptions) (env : Env)
    (now : Nat) : CoreState × List Effect × ConnectReturn :=
  if (s.disconnectAction.map (fun d => d.isCallingHook)).getD false then
    (s, [], .voidReturn)
  else
    match s.connectAction with
    | some a => (s, [], .promiseOf a.resolvableId)
    | none =>
        let s1 :=
          match options.shouldAutoReconnect with
          | some b => { s with autoReconnect := b }
          | none => s
        let rid := s1.nextResolvableId
        let connectAction : IConnectAction :=
          { isAutomatic := (options.isAutoConnect).getD false,
            startTime := now, resolvableId := rid }
        let s2 := { s1 with nextResolvableId := rid + 1,
                            disconnectAction := none,
                            connectAction := some connectAction }
        let tr := [Effect.transportConnect options.timeoutMs]
        match env.transportConnect with
        | .err e =>
            let s3 := { s2 with connectAction := none }
            (s3.settleResolvable rid (.rejected e), tr, .promiseOf rid)
        | .ok _ =>
            let s3 := { s2 with didCallConnectionTerminated := false }
            let hook := afterConnectHook s3 env
            match hook.2.2 with
            | .err e =>
                let s4 := { hook.1 with connectAction := none }
                (s4.settleResolvable rid (.rejected e), tr ++ hook.2.1,
                 .promiseOf rid)
            | .ok _ =>
                (hook.1.settleResolvable rid .resolved,
                 tr ++ hook.2.1 ++ [Effect.emitConnected], .promiseOf rid)

/-- `disconnect(fatalError?)`: disable auto-reconnect, join a live
disconnect action, otherwise create one, cancel pending entries, run the
before-disconnect hook (errors swallowed), call the transport disconnect,
drive teardown, and resolve the action's resolvable in a `finally`.  A
teardown rejection still resolves the resolvable but propagates as the
rejection of the call itself (`JsResult.err`); on success the returned
`Nat` is the resolvable whose promise the caller receives. -/
def disconnect (s : CoreState) (fatalError : Option JsError) (env : Env)
    (now : Nat) : CoreState × List Effect × JsResult Nat :=
  let s0 := { s with autoReconnect := false }
  match s0.disconnectAction with
  | some d => (s0, [], .ok d.resolvableId)
  | none =>
      let rid := s0.nextResolvableId
      let disconnectAction : IConnectAction :=
        { isAutomatic := false, startTime := now, resolvableId := rid,
          error := fatalError }
      let s1 := { s0 with nextResolvableId := rid + 1,
                          disconnectAction := some disconnectAction }
      let tr0 := [Effect.logStats "ConnectionToCore.Disconnecting"]
      let s2 := { s1 with pendingMessages :=
                    s1.pendingMessages.cancel (DisconnectedError s1.transportHost) }
      let bh := beforeDisconnectHook s2 env
      let tr1 := [Effect.transportDisconnect]
      let term := onConnectionTerminated bh.1 env now
      match term.2.2 with
      | .err e =>
          (term.1.settleResolvable rid .resolved,
           tr0 ++ bh.2 ++ tr1 ++ term.2.1, .err e)
      | .ok _ =>
          let s3 := { term.1 with connectAction := none }
          (s3.settleResolvable rid .resolved,
           tr0 ++ bh.2 ++ tr1 ++ term.2.1 ++
             [Effect.logStats "ConnectionToCore.Disconnected"], .ok rid)

/-- `shouldAutoConnect()`: the auto-connect policy predicate. -/
def shouldAutoConnect (s : CoreState) (now : Nat) : Bool :=
  if !s.autoReconnect || s.connectAction.isSome then false
  else if (s.disconnectAction.bind (fun d => d.hookMessageId)).isSome then false
  else
    match s.lastDisconnectDate with
    | none => true
    | some last =>
        match s.minimumAutoReconnectMillis with
        | none => false
        | some m => decide ((now : Int) - (last : Int) ≥ (m : Int))

structure RequestPayload where
  command : String
  args : List String := []
  commandId : Option Nat := none
  startTime : Option Nat := none
deriving DecidableEq

/-- What `await`ing the value returned by `connect()` observes inside
`sendRequest`: nothing when the call returned void (early return while a
disconnect hook was mid-call — awaiting `undefined` is a no-op), the
connect failure when the connect action's resolvable was rejected, and
nothing when it was resolved.  `connect` settles the resolvable before
returning on every path, so an unsettled resolvable does not arise from it;
for totality an unsettled entry is treated like a resolved one. -/
def awaitConnectError (s : CoreState) (r : ConnectReturn) : Option JsError :=
  match r with
  | .voidReturn => none
  | .promiseOf rid =>
      match lookupId s.resolvables rid with
      | some (ResolvableState.rejected e) => some e
      | _ => none

/-- The body of `sendRequest` from registry-entry creation onward — the
part that runs only after `await this.connect(...)` (when taken) completed
without throwing.  Creates the pending entry (tagging it on the action
whose hook is executing), sends, and awaits the send/response race.  On
failure the entry is deleted and a cancellation is swallowed (empty
result) when a disconnect action is present; the hook tag is cleared in a
finally.  Returns the final state, the trace, the caller's outcome, and
the allocated message id. -/
def sendRequestBody (s1 : CoreState)
    (activeConnectHook activeDisconnectHook : Bool) (timeoutMs : Option Nat)
    (env : Env) : CoreState × List Effect × JsResult (Option String) × Nat :=
  let created := s1.pendingMessages.create timeoutMs
    (activeConnectHook || activeDisconnectHook)
  let id := created.1
  let s2 := { s1 with pendingMessages := created.2 }
  let s3 :=
    if activeConnectHook then
      { s2 with connectAction :=
          s2.connectAction.map (fun a => { a with hookMessageId := some id }) }
    else s2
  let s4 :=
    if activeDisconnectHook then
      { s3 with disconnectAction :=
          s3.disconnectAction.map (fun a => { a with hookMessageId := some id }) }
    else s3
  let settled :=
    match env.requestOutcome with
    | .ok v => (s4, JsResult.ok v)
    | .err e =>
        let s5 := { s4 with pendingMessages := s4.pendingMessages.delete id }
        (s5,
         if s5.disconnectAction.isSome && e.isCanceledPromiseError then
           JsResult.ok none
         else JsResult.err e)
  let s6 :=
    if activeConnectHook then
      { settled.1 with connectAction :=
          settled.1.connectAction.map (fun a => { a with hookMessageId := none }) }
    else settled.1
  let s7 :=
    if activeDisconnectHook then
      { s6 with disconnectAction :=
          s6.disconnectAction.map (fun a => { a with hookMessageId := none }) }
    else s6
  (s7, [Effect.transportSend id], settled.2, id)

/-- `sendRequest(payload, timeoutMs?)`: capture whether a connect or
disconnect hook is executing on this call stack, then run the implicit
`await this.connect({ timeoutMs, isAutoConnect: true })` when policy
allows — a failed auto-connect rethrows here, before any registry entry is
created or any send occurs — and otherwise run the request body.  The
final `Option Nat` is the allocated message id, `none` when the call
aborted inside the implicit connect. -/
def sendRequest (s : CoreState) (_payload : RequestPayload)
    (timeoutMs : Option Nat) (env : Env) (now : Nat) :
    CoreState × List Effect × JsResult (Option String) × Option Nat :=
  let activeConnectHook := (s.connectAction.map (fun a => a.isCallingHook)).getD false
  let activeDisconnectHook :=
    (s.disconnectAction.map (fun a => a.isCallingHook)).getD false
  let auto :=
    if shouldAutoConnect s now then
      let c := connect s { timeoutMs := timeoutMs, isAutoConnect := some true } env now
      (c.1, c.2.1, awaitConnectError c.1 c.2.2)
    else (s, [], none)
  match auto.2.2 with
  | some e => (auto.1, auto.2.1, JsResult.err e, none)
  | none =>
      let body := sendRequestBody auto.1 activeConnectHook activeDisconnectHook
        timeoutMs env
      (body.1, auto.2.1 ++ body.2.1, body.2.2.1, some body.2.2.2)

/-- `hasActiveSessions()`: default implementation. -/
def hasActiveSessions (_s : CoreState) : Bool := false

/-- Restatement of the `shouldAutoConnect` policy in the words of the spec:
false if auto-reconnect is disabled, or a connect action is already live, or
a disconnect's hook has a tagged in-flight request; true if there has never
been a disconnect; otherwise true exactly when the elapsed time since the
last disconnect meets the minimum auto-reconnect interval, a
not-a-number interval making it always false after a disconnect. -/
def shouldAutoConnectSpec (s : CoreState) (now : Nat) : Bool :=
  if !s.autoReconnect then false
  else if s.connectAction.isSome then false
  else if (s.disconnectAction.bind (fun d => d.hookMessageId)).isSome then false
  else if s.lastDisconnectDate.isNone then true
  else
    match s.lastDisconnectDate, s.minimumAutoReconnectMillis with
    | some last, some m => decide ((now : Int) - (last : Int) ≥ (m : Int))
    | _, none => false
    | none, _ => true

def stateC2 : CoreState :=
  { transportHost := "core-host",
    connectAction := some { startTime := 0, resolvableId := 0,
                            isCallingHook := true, hookMessageId := some 1 },
    pendingMessages := { nextId := 2, pending := [{ id := 1 }] } }

def stateC9 : CoreState :=
  { transportHost := "localhost",
    connectAction := some { startTime := 0, resolvableId := 0 } }

def stateC10 : CoreState :=
  { transportHost := "core",
    pendingMessages := { nextId := 2, pending := [{ id := 1 }] } }

def stateC1 : CoreState :=
  { transportHost := "localhost",
    connectAction := some { startTime := 0, resolvableId := 0 },
    disconnectAction := some { startTime := 0, resolvableId := 1,
                               isCallingHook := true } }

def stateC1join : CoreState :=
  { transportHost := "localhost",
    connectAction := some { startTime := 5, resolvableId := 3 },
    disconnectAction := some { startTime := 6, resolvableId := 4 } }

def stateC3 : CoreState := { transportHost := "remote3" }

def errC3 : JsError := { name := "Error", message := "afterDisconnect boom" }

def envC3 : Env := { afterDisconnectHook := some (.err errC3) }

def stateC3done : CoreState :=
  { transportHost := "remote3b", didCallConnectionTerminated := true }

def stateC4 : CoreState := { transportHost := "remote4" }

def errC4 : JsError := { name := "Error", message := "after hook boom" }

def envC4 : Env := { afterDisconnectHook := some (.err errC4) }

def stateC6 : CoreState :=
  { transportHost := "core6",
    disconnectAction := some { startTime := 0, resolvableId := 7 },
    pendingMessages := { nextId := 6, pending := [{ id := 5 }] } }

def errC6 : JsError := { name := "BrowserLaunchError", isDisconnecting := true }

def stateC6w : CoreState :=
  { transportHost := "core6w",
    pendingMessages := { nextId := 3, pending := [{ id := 2 }] } }

def stateC4w : CoreState := { transportHost := "w4" }

def envC4w : Env :=
  { beforeDisconnectFn := some (.err { name := "Error", message := "pre boom" }) }

def stateC7 : CoreState :=
  { transportHost := "core7", autoReconnect := false,
    disconnectAction := some { startTime := 0, resolvableId := 9 } }

def errC7 : JsError :=
  { name := "CanceledPromiseError", isCanceledPromiseError := true }

def envC7 : Env := { requestOutcome := .err errC7 }

def stateC8 : CoreState := { transportHost := "core8" }

def errC8 : JsError := { name := "Error", message := "ECONNREFUSED" }

def envC8 : Env := { transportConnect := .err errC8 }

/-!  Helper lemmas shared by the claim theorems. -/

theorem lookupId_append_left {β : Type} (l1 l2 : List (Nat × β)) (id : Nat)
    (h : (lookupId l1 id).isSome = true) :
    lookupId (l1 ++ l2) id = lookupId l1 id := by
  induction l1 with
  | nil => simp [lookupId] at h
  | cons p rest ih =>
      cases p with
      | mk k v =>
          by_cases hk : k = id
          · simp [lookupId, hk]
          · simp [lookupId, hk] at h ⊢
            exact ih h

theorem lookupId_append_right {β : Type} (l1 l2 : List (Nat × β)) (id : Nat)
    (h : lookupId l1 id = none) :
    lookupId (l1 ++ l2) id = lookupId l2 id := by
  induction l1 with
  | nil => simp
  | cons p rest ih =>
      cases p with
      | mk k v =>
          by_cases hk : k = id
          · simp [lookupId, hk] at h
          · simp [lookupId, hk] at h ⊢
            exact ih h

theorem isPending_filter_self (l : List PendingEntry) (id : Nat) :
    (l.filter (fun p => p.id ≠ id)).any (fun p => p.id == id) = false := by
  induction l with
  | nil => simp
  | cons p rest ih =>
      by_cases hp : p.id = id
      · simp [hp, List.filter, ih]
      · simp [List.filter, hp, ih]

/-- `reject` on a live id removes it and appends exactly one rejection. -/
theorem PendingMessages.reject_pending (pm : PendingMessages) (id : Nat)
    (e : JsError) (h : pm.isPending id = true) :
    (pm.reject id e).settledLog = pm.settledLog ++ [(id, Settlement.rejected e)] ∧
    (pm.reject id e).isPending id = false := by
  unfold PendingMessages.reject
  rw [h]
  exact ⟨rfl, isPending_filter_self pm.pending id⟩

/-- `resolve` on a live id removes it and appends exactly one resolution. -/
theorem PendingMessages.resolve_pending (pm : PendingMessages) (id : Nat)
    (v : Option String) (h : pm.isPending id = true) :
    (pm.resolve id v).settledLog = pm.settledLog ++ [(id, Settlement.resolved v)] ∧
    (pm.resolve id v).isPending id = false := by
  unfold PendingMessages.resolve
  rw [h]
  exact ⟨rfl, isPending_filter_self pm.pending id⟩

/-- Every registry settlement operation only appends to the settlement log. -/
theorem PendingMessages.resolve_settledLog_extends (pm : PendingMessages)
    (id : Nat) (v : Option String) :
    ∃ t, (pm.resolve id v).settledLog = pm.settledLog ++ t := by
  unfold PendingMessages.resolve
  by_cases h : pm.isPending id = true
  · rw [h]; exact ⟨_, rfl⟩
  · rw [Bool.not_eq_true] at h
    rw [h]
    simp

theorem PendingMessages.reject_settledLog_extends (pm : PendingMessages)
    (id : Nat) (e : JsError) :
    ∃ t, (pm.reject id e).settledLog = pm.settledLog ++ t := by
  unfold PendingMessages.reject
  by_cases h : pm.isPending id = true
  · rw [h]; exact ⟨_, rfl⟩
  · rw [Bool.not_eq_true] at h
    rw [h]
    simp

theorem PendingMessages.cancel_settledLog_extends (pm : PendingMessages)
    (e : JsError) :
    ∃ t, (pm.cancel e).settledLog = pm.settledLog ++ t :=
  ⟨_, rfl⟩

/-- `onResponse` touches only the registry. -/
theorem onResponse_only_registry (s : CoreState) (msg : ResponsePayload) :
    (onResponse s msg).connectAction = s.connectAction ∧
    (onResponse s msg).disconnectAction = s.disconnectAction ∧
    (onResponse s msg).transportHost = s.transportHost ∧
    (onResponse s msg).resolvables = s.resolvables := by
  unfold onResponse
  cases msg.data <;> simp

/-- `onResponse` only appends to the settlement log. -/
theorem onResponse_settledLog_extends (s : CoreState) (msg : ResponsePayload) :
    ∃ t, (onResponse s msg).pendingMessages.settledLog =
      s.pendingMessages.settledLog ++ t := by
  unfold onResponse
  cases msg.data with
  | value v =>
      simpa using PendingMessages.resolve_settledLog_extends
        s.pendingMessages msg.responseId v
  | error e =>
      simpa using PendingMessages.reject_settledLog_extends
        s.pendingMessages msg.responseId _

/-- Delivering a `DisconnectedError` payload rejects the entry with that
same error, whatever the disconnect state: the error is not renamed by the
normalization (its `isDisconnecting` marker is already clear and its name is
not a launch error). -/
theorem onResponse_disconnectedError (s : CoreState) (id : Nat) :
    onResponse s
        { responseId := id, data := .error (DisconnectedError s.transportHost) } =
      { s with pendingMessages :=
          s.pendingMessages.reject id (DisconnectedError s.transportHost) } := by
  unfold onResponse
  dsimp only
  have hbrowser : isBrowserLaunchError
      ({ DisconnectedError s.transportHost with isDisconnecting := false }) = false := rfl
  rw [hbrowser]
  have hcl : ({ DisconnectedError s.transportHost with
      isDisconnecting := false } : JsError) = DisconnectedError s.transportHost := rfl
  rw [hcl]
  simp

/-- Delivering a `null` success payload resolves the entry with `none`. -/
theorem onResponse_nullValue (s : CoreState) (id : Nat) :
    onResponse s { responseId := id, data := .value none } =
      { s with pendingMessages := s.pendingMessages.resolve id none } := rfl

/-- The disconnect-hook settlement stage only appends to the log. -/
theorem settleDisconnectHookRequest_extends (s : CoreState) :
    ∃ t, (settleDisconnectHookRequest s).pendingMessages.settledLog =
      s.pendingMessages.settledLog ++ t := by
  unfold settleDisconnectHookRequest
  cases s.disconnectAction with
  | none => exact ⟨[], by simp⟩
  | some d =>
      dsimp only
      cases d.hookMessageId with
      | none => exact ⟨[], by simp⟩
      | some id2 => exact onResponse_settledLog_extends s _

/-- The connect-hook settlement stage on a state whose connect action holds
a tagged, still-pending hook request settles exactly that request. -/
theorem settleConnectHookRequest_tagged (s : CoreState) (c : IConnectAction)
    (id : Nat) (hc : s.connectAction = some c)
    (hid : c.hookMessageId = some id)
    (hpend : s.pendingMessages.isPending id = true)
    (hlog : lookupId s.pendingMessages.settledLog id = none) :
    lookupId (settleConnectHookRequest s).pendingMessages.settledLog id =
      some (if !c.isAutomatic then
              Settlement.rejected (DisconnectedError s.transportHost)
            else Settlement.resolved none) := by
  unfold settleConnectHookRequest
  rw [hc]
  dsimp only
  rw [hid]
  dsimp only
  cases haut : c.isAutomatic with
  | false =>
      simp only [Bool.not_false, reduceIte]
      rw [onResponse_disconnectedError s id]
      dsimp only
      rw [(PendingMessages.reject_pending s.pendingMessages id
            (DisconnectedError s.transportHost) hpend).1,
          lookupId_append_right _ _ _ hlog]
      simp [lookupId]
  | true =>
      simp only [Bool.not_true, Bool.false_eq_true, if_false]
      rw [onResponse_nullValue s id]
      dsimp only
      rw [(PendingMessages.resolve_pending s.pendingMessages id none hpend).1,
          lookupId_append_right _ _ _ hlog]
      simp [lookupId]

/-- Settling an unsettled resolvable records the given settlement. -/
theorem settleResolvable_lookup (S : CoreState) (rid : Nat)
    (st : ResolvableState) (h : lookupId S.resolvables rid = none) :
    lookupId (S.settleResolvable rid st).resolvables rid = some st := by
  unfold CoreState.settleResolvable
  rw [h]
  simp only [Option.isSome_none, Bool.false_eq_true, if_false]
  rw [lookupId_append_right _ _ _ h]
  simp [lookupId]

theorem settleConnectHookRequest_resolvables (s : CoreState) :
    (settleConnectHookRequest s).resolvables = s.resolvables := by
  unfold settleConnectHookRequest
  cases s.connectAction with
  | none => rfl
  | some c =>
      dsimp only
      cases c.hookMessageId with
      | none => rfl
      | some id => exact (onResponse_only_registry s _).2.2.2

theorem settleDisconnectHookRequest_resolvables (s : CoreState) :
    (settleDisconnectHookRequest s).resolvables = s.resolvables := by
  unfold settleDisconnectHookRequest
  cases s.disconnectAction with
  | none => rfl
  | some d =>
      dsimp only
      cases d.hookMessageId with
      | none => rfl
      | some id => exact (onResponse_only_registry s _).2.2.2

theorem beforeDisconnectHook_resolvables (s : CoreState) (env : Env) :
    (beforeDisconnectHook s env).1.resolvables = s.resolvables := by
  unfold beforeDisconnectHook
  cases s.disconnectAction with
  | none => rfl
  | some d => rfl

theorem onConnectionTerminated_resolvables (s : CoreState) (env : Env)
    (now : Nat) :
    (onConnectionTerminated s env now).1.resolvables = s.resolvables := by
  unfold onConnectionTerminated
  cases hdid : s.didCallConnectionTerminated with
  | true => simp
  | false =>
      simp only [Bool.false_eq_true, if_false]
      cases env.afterDisconnectHook with
      | none =>
          simp [settleDisconnectHookRequest_resolvables,
                settleConnectHookRequest_resolvables]
      | some r =>
          cases r with
          | ok v =>
              simp [settleDisconnectHookRequest_resolvables,
                    settleConnectHookRequest_resolvables]
          | err e =>
              simp [settleDisconnectHookRequest_resolvables,
                    settleConnectHookRequest_resolvables]

/-- The only rejection `onConnectionTerminated` can produce is the
after-disconnect hook's own rejection. -/
theorem onConnectionTerminated_err (s : CoreState) (env : Env) (now : Nat)
    (e : JsError) (h : (onConnectionTerminated s env now).2.2 = .err e) :
    env.afterDisconnectHook = some (.err e) := by
  unfold onConnectionTerminated at h
  cases hdid : s.didCallConnectionTerminated with
  | true => rw [hdid] at h; simp at h
  | false =>
      rw [hdid] at h
      simp only [Bool.false_eq_true, if_false] at h
      cases henv : env.afterDisconnectHook with
      | none => rw [henv] at h; simp at h
      | some r =>
          cases r with
          | ok v => rw [henv] at h; simp at h
          | err e2 =>
              rw [henv] at h
              dsimp only at h
              cases h
              rfl

/-- A failing before-disconnect hook logs its error. -/
theorem beforeDisconnectHook_logs_mem (s : CoreState) (env : Env) (e : JsError)
    (hds : s.disconnectAction.isSome = true)
    (hbf : env.beforeDisconnectFn = some (.err e)) :
    Effect.logError "Error in beforeDisconnect hook" ∈
      (beforeDisconnectHook s env).2 := by
  unfold beforeDisconnectHook
  cases hd : s.disconnectAction with
  | none => rw [hd] at hds; simp at hds
  | some d =>
      dsimp only
      rw [hbf]
      simp

/-- Settling a resolvable changes no action field. -/
theorem settleResolvable_fields (S : CoreState) (rid : Nat)
    (st : ResolvableState) :
    (S.settleResolvable rid st).connectAction = S.connectAction ∧
    (S.settleResolvable rid st).disconnectAction = S.disconnectAction := by
  unfold CoreState.settleResolvable
  split <;> simp

/-- With no disconnect action, a live connect action, and an unsettled
resolvable, the after-connect hook stage actually runs the configured
hook. -/
theorem afterConnectHook_runs (s : CoreState) (env : Env) (c : IConnectAction)
    (hd : s.disconnectAction = none) (hc : s.connectAction = some c)
    (hr : lookupId s.resolvables c.resolvableId = none) :
    afterConnectHook s env =
      ({ s with connectAction := some { c with isCallingHook := false } },
       (match env.afterConnectFn with
        | none => []
        | some _ => [Effect.callAfterConnectFn]),
       (match env.afterConnectFn with
        | none => JsResult.ok ()
        | some r => r)) := by
  unfold afterConnectHook
  rw [hd, hc]
  simp only [Option.isSome_none, Bool.false_eq_true, if_false]
  try dsimp only
  rw [hr]
  simp only [Option.isSome_none, Bool.false_eq_true, if_false]
  cases env.afterConnectFn with
  | none => rfl
  | some r =>
      cases r with
      | ok v => rfl
      | err e => rfl

/-- A fresh `connect()` attempt (no live connect action, no disconnect hook
mid-call) always reaches the transport connect. -/
theorem connect_fresh_transportConnect_mem (s : CoreState)
    (options : ConnectOptions) (env : Env) (now : Nat)
    (hnoc : s.connectAction = none)
    (hnod : (s.disconnectAction.map (fun d => d.isCallingHook)).getD false =
      false) :
    Effect.transportConnect options.timeoutMs ∈ (connect s options env now).2.1 := by
  unfold connect
  rw [hnod]
  simp only [Bool.false_eq_true, if_false]
  rw [hnoc]
  dsimp only
  cases options.shouldAutoReconnect <;>
    cases env.transportConnect <;>
      (dsimp only
       try split) <;>
        simp

/-!  Theorems settling the claims. -/

/-- C5: `shouldAutoConnect()` returns false if auto-reconnect is disabled,
or a connect action is already live, or a disconnect's hook request is
mid-flight; true if there has never been a disconnect; otherwise true
exactly when the elapsed time since the last disconnect meets the minimum
auto-reconnect interval, whose class default is 1000 ms, a NaN interval
making it always false after a disconnect. -/
theorem shouldAutoConnect_matches_spec :
    (∀ (s : CoreState) (now : Nat),
        shouldAutoConnect s now = shouldAutoConnectSpec s now) ∧
    (∀ h : String,
        ({ transportHost := h } : CoreState).minimumAutoReconnectMillis =
          some 1000) := by
  constructor
  · intro s now
    unfold shouldAutoConnect shouldAutoConnectSpec
    cases s.autoReconnect <;>
      cases s.connectAction <;>
        cases s.lastDisconnectDate <;>
          cases s.minimumAutoReconnectMillis <;>
            simp
  · intro h
    rfl

/-- C2: when teardown runs while the connect action has a tagged hook
request, that request is force-settled: rejected with a `DisconnectedError`
carrying the transport's host when the connect was not automatic, resolved
with an empty (`null`) success when it was automatic. -/
theorem terminated_force_settles_connect_hook (s : CoreState) (env : Env)
    (now : Nat) (c : IConnectAction) (id : Nat)
    (hterm : s.didCallConnectionTerminated = false)
    (hc : s.connectAction = some c)
    (hid : c.hookMessageId = some id)
    (hpend : s.pendingMessages.isPending id = true)
    (hlog : lookupId s.pendingMessages.settledLog id = none) :
    lookupId (onConnectionTerminated s env now).1.pendingMessages.settledLog id =
      some (if !c.isAutomatic then
              Settlement.rejected (DisconnectedError s.transportHost)
            else Settlement.resolved none) := by
  unfold onConnectionTerminated
  rw [hterm]
  simp only [Bool.false_eq_true, if_false]
  set s1 : CoreState :=
    { s with lastDisconnectDate := some now, didCallConnectionTerminated := true }
    with hs1
  set s2 : CoreState := settleConnectHookRequest s1 with hs2
  set s3 : CoreState := { s2 with connectAction := none } with hs3
  set s4 : CoreState := settleDisconnectHookRequest s3 with hs4
  have hlog2 : lookupId s2.pendingMessages.settledLog id =
      some (if !c.isAutomatic then
              Settlement.rejected (DisconnectedError s.transportHost)
            else Settlement.resolved none) := by
    rw [hs2]
    exact settleConnectHookRequest_tagged s1 c id hc hid hpend hlog
  have hsome2 : (lookupId s2.pendingMessages.settledLog id).isSome = true := by
    rw [hlog2]; rfl
  have hlog4 : lookupId s4.pendingMessages.settledLog id =
      lookupId s2.pendingMessages.settledLog id := by
    obtain ⟨t, ht⟩ := settleDisconnectHookRequest_extends s3
    rw [hs4, ht]
    exact lookupId_append_left _ _ _ hsome2
  have hsome4 : (lookupId s4.pendingMessages.settledLog id).isSome = true := by
    rw [hlog4]; exact hsome2
  obtain ⟨t5, ht5⟩ := PendingMessages.cancel_settledLog_extends
    s4.pendingMessages (DisconnectedError s4.transportHost)
  have hgoal : lookupId (s4.pendingMessages.cancel
      (DisconnectedError s4.transportHost)).settledLog id =
      some (if !c.isAutomatic then
              Settlement.rejected (DisconnectedError s.transportHost)
            else Settlement.resolved none) := by
    rw [ht5, lookupId_append_left _ _ _ hsome4, hlog4, hlog2]
  cases henv : env.afterDisconnectHook with
  | none => exact hgoal
  | some r =>
      cases r with
      | ok v => exact hgoal
      | err e => exact hgoal

theorem terminated_force_settles_connect_hook_witness :
    lookupId (onConnectionTerminated stateC2 {} 9).1.pendingMessages.settledLog 1 =
      some (Settlement.rejected (DisconnectedError "core-host")) := by
  have h := terminated_force_settles_connect_hook stateC2 {} 9
    { startTime := 0, resolvableId := 0, isCallingHook := true,
      hookMessageId := some 1 } 1 rfl rfl rfl rfl rfl
  simpa using h

/-- C9: a `connect(options)` call made while a connect action is already
live leaves the controller state unchanged; in particular `autoReconnect`
keeps its prior value even when the options carry `shouldAutoReconnect`,
because the call returns before the options are read. -/
theorem connect_while_live_frame (s : CoreState) (options : ConnectOptions)
    (env : Env) (now : Nat) (h : s.connectAction.isSome = true) :
    (connect s options env now).1 = s ∧
    (connect s options env now).1.autoReconnect = s.autoReconnect := by
  have hbody : (connect s options env now).1 = s := by
    unfold connect
    cases hd : (s.disconnectAction.map (fun d => d.isCallingHook)).getD false
    · simp
      cases hc : s.connectAction <;> simp_all
    · simp
  exact ⟨hbody, by rw [hbody]⟩

theorem connect_while_live_frame_witness :
    (connect stateC9 { shouldAutoReconnect := some false } {} 0).1 = stateC9 ∧
    (connect stateC9 { shouldAutoReconnect := some false } {} 0).1.autoReconnect =
      stateC9.autoReconnect :=
  connect_while_live_frame stateC9 { shouldAutoReconnect := some false } {} 0
    (by rfl)

/-- C10: an inbound transport message with neither a `responseId` field nor
a `listenerId`/`eventType` field is ignored: the state is unchanged and no
effect is produced. -/
theorem onMessage_ignores_unclassified (s : CoreState) (m : InboundMessage)
    (h1 : m.responseId = none) (h2 : m.listenerId = none)
    (h3 : m.eventType = none) :
    onMessage s m = (s, []) := by
  unfold onMessage
  rw [h1]
  simp [h2, h3]

theorem onMessage_ignores_unclassified_witness :
    onMessage stateC10 { data := .value (some "x") } = (stateC10, []) :=
  onMessage_ignores_unclassified stateC10 { data := .value (some "x") }
    rfl rfl rfl

/-- C1 counterexample: with a connect action live (resolvable 0) but a
disconnect hook mid-call, `connect()` returns void, not the live connect
action's existing outcome — the claim's universal statement fails at this
reachable state (connected, then `disconnect()` whose before-disconnect
hook itself calls `connect()`). -/
theorem connect_join_counterexample :
    stateC1.connectAction = some { startTime := 0, resolvableId := 0 } ∧
    (connect stateC1 {} {} 0).2.2 = ConnectReturn.voidReturn ∧
    ConnectReturn.voidReturn ≠ ConnectReturn.promiseOf 0 := by
  refine ⟨rfl, rfl, ?_⟩
  decide

/-- C1 (amended): at most one live connect and one live disconnect action
ever exist (one field each); a `connect()` call made while a connect action
is live and no disconnect hook is mid-call returns that action's existing
outcome with no second transport connect and no state change; while a
disconnect hook is mid-call, `connect()` returns void and touches nothing;
a `disconnect()` call made while a disconnect action is live returns the
existing disconnect outcome with no second teardown (only the
auto-reconnect flag is lowered first). -/
theorem live_action_calls_join (s : CoreState) (options : ConnectOptions)
    (fatalError : Option JsError) (env : Env) (now : Nat)
    (a d : IConnectAction) :
    (s.connectAction = some a →
      (s.disconnectAction.map (fun x => x.isCallingHook)).getD false = false →
      connect s options env now = (s, [], .promiseOf a.resolvableId)) ∧
    ((s.disconnectAction.map (fun x => x.isCallingHook)).getD false = true →
      connect s options env now = (s, [], .voidReturn)) ∧
    (s.disconnectAction = some d →
      disconnect s fatalError env now =
        ({ s with autoReconnect := false }, [], .ok d.resolvableId)) := by
  refine ⟨?_, ?_, ?_⟩
  · intro hc hd
    unfold connect
    rw [hd, hc]
    simp
  · intro hd
    unfold connect
    rw [hd]
    simp
  · intro hdis
    unfold disconnect
    dsimp only
    rw [hdis]

theorem live_action_calls_join_witness :
    connect stateC1join {} {} 7 = (stateC1join, [], .promiseOf 3) ∧
    connect stateC1 {} {} 7 = (stateC1, [], .voidReturn) ∧
    disconnect stateC1join none {} 7 =
      ({ stateC1join with autoReconnect := false }, [], .ok 4) :=
  ⟨(live_action_calls_join stateC1join {} none {} 7
      { startTime := 5, resolvableId := 3 }
      { startTime := 6, resolvableId := 4 }).1 rfl rfl,
   (live_action_calls_join stateC1 {} none {} 7
      { startTime := 0, resolvableId := 0 }
      { startTime := 0, resolvableId := 1, isCallingHook := true }).2.1 rfl,
   (live_action_calls_join stateC1join {} none {} 7
      { startTime := 5, resolvableId := 3 }
      { startTime := 6, resolvableId := 4 }).2.2 rfl⟩

/-- C3 counterexample: teardown run with a failing after-disconnect hook
rejects outward with the hook's error — it is neither caught nor logged, so
"teardown never throws outward" is false. -/
theorem teardown_throws_counterexample :
    (onConnectionTerminated stateC3 envC3 0).2.2 = JsResult.err errC3 ∧
    JsResult.err errC3 ≠ JsResult.ok () := by
  refine ⟨rfl, ?_⟩
  decide

/-- C3 (amended): teardown runs at most once per disconnection episode and
invokes the after-disconnect hook exactly when one is configured, but an
error thrown by that hook is not observed-and-swallowed: teardown's own
outcome is exactly the hook's outcome, so a hook rejection propagates
outward (only the before-disconnect hook's errors are swallowed). -/
theorem after_disconnect_hook_propagates (s : CoreState) (env : Env)
    (now : Nat) :
    (s.didCallConnectionTerminated = true →
      onConnectionTerminated s env now = (s, [], .ok ())) ∧
    (s.didCallConnectionTerminated = false →
      (env.afterDisconnectHook = none →
        (onConnectionTerminated s env now).2.2 = .ok () ∧
        Effect.callAfterDisconnectHook ∉ (onConnectionTerminated s env now).2.1) ∧
      (∀ hr, env.afterDisconnectHook = some hr →
        Effect.callAfterDisconnectHook ∈ (onConnectionTerminated s env now).2.1 ∧
        (onConnectionTerminated s env now).2.2 = hr)) := by
  constructor
  · intro h
    unfold onConnectionTerminated
    rw [h]
    simp
  · intro h
    unfold onConnectionTerminated
    rw [h]
    simp only [Bool.false_eq_true, if_false]
    constructor
    · intro henv
      rw [henv]
      simp
    · intro hr henv
      rw [henv]
      cases hr with
      | ok v => simp
      | err e => simp

theorem after_disconnect_hook_propagates_witness :
    onConnectionTerminated stateC3done {} 0 = (stateC3done, [], .ok ()) ∧
    Effect.callAfterDisconnectHook ∈ (onConnectionTerminated stateC3 envC3 1).2.1 ∧
    (onConnectionTerminated stateC3 envC3 1).2.2 = JsResult.err errC3 :=
  ⟨(after_disconnect_hook_propagates stateC3done {} 0).1 rfl,
   (((after_disconnect_hook_propagates stateC3 envC3 1).2 rfl).2
      (JsResult.err errC3) rfl).1,
   (((after_disconnect_hook_propagates stateC3 envC3 1).2 rfl).2
      (JsResult.err errC3) rfl).2⟩

/-- C4 counterexample: a failing after-disconnect hook makes the initiating
`disconnect()` call reject with that error (even though the disconnect
action's resolvable is still resolved by the finalizer), so "never cause it
to reject" is false. -/
theorem disconnect_rejects_counterexample :
    (disconnect stateC4 none envC4 0).2.2 = JsResult.err errC4 ∧
    lookupId (disconnect stateC4 none envC4 0).1.resolvables 0 =
      some ResolvableState.resolved := by
  constructor <;> rfl

/-- C4 (amended): for a fresh `disconnect()` the action's resolvable is
always resolved via the guaranteed finalizer (so joining callers always
observe a settled success), and before-disconnect hook failures are logged
and swallowed; but a teardown failure — which can only be the
after-disconnect hook's rejection — propagates as the rejection of the
initiating call. -/
theorem disconnect_always_settles (s : CoreState) (fatalError : Option JsError)
    (env : Env) (now : Nat)
    (hfresh : s.disconnectAction = none)
    (hrid : lookupId s.resolvables s.nextResolvableId = none) :
    lookupId (disconnect s fatalError env now).1.resolvables
        s.nextResolvableId = some ResolvableState.resolved ∧
    (∀ e, (disconnect s fatalError env now).2.2 = JsResult.err e →
      env.afterDisconnectHook = some (.err e)) ∧
    (∀ e, env.beforeDisconnectFn = some (.err e) →
      Effect.logError "Error in beforeDisconnect hook" ∈
        (disconnect s fatalError env now).2.1) := by
  unfold disconnect
  dsimp only
  rw [hfresh]
  dsimp only
  refine ⟨?_, ?_, ?_⟩
  · split
    · dsimp only
      exact settleResolvable_lookup _ _ _ (by
        rw [onConnectionTerminated_resolvables, beforeDisconnectHook_resolvables]
        exact hrid)
    · dsimp only
      exact settleResolvable_lookup _ _ _ (by
        dsimp only
        rw [onConnectionTerminated_resolvables, beforeDisconnectHook_resolvables]
        exact hrid)
  · intro e he
    split at he
    next e2 heq =>
      dsimp only at he
      cases he
      exact onConnectionTerminated_err _ env now e heq
    next v heq =>
      dsimp only at he
      simp at he
  · intro e hbf
    split
    · dsimp only
      simp only [List.mem_append]
      refine Or.inl (Or.inl (Or.inr ?_))
      refine beforeDisconnectHook_logs_mem _ env e ?_ hbf
      rfl
    · dsimp only
      simp only [List.mem_append]
      refine Or.inl (Or.inl (Or.inl (Or.inr ?_)))
      refine beforeDisconnectHook_logs_mem _ env e ?_ hbf
      rfl

/-- C6 counterexample: a browser-launch error marked `isDisconnecting`,
arriving mid-disconnect, is delivered with the marker deleted — not
verbatim as the claim states. -/
theorem browser_launch_error_not_verbatim :
    (onResponse stateC6
        { responseId := 5, data := .error errC6 }).pendingMessages.settledLog =
      [(5, Settlement.rejected { errC6 with isDisconnecting := false })] ∧
    ({ errC6 with isDisconnecting := false } : JsError) ≠ errC6 := by
  refine ⟨rfl, ?_⟩
  decide

/-- C6 (amended): an inbound error response is rejected with a canonical
`DisconnectedError` carrying the transport's host when the controller is
mid-disconnect, or the error's name is the session-closed/missing one, or
the error is marked `isDisconnecting` — unless the error is a
browser-launch or missing-dependencies error, which is passed through with
its `isDisconnecting` marker cleared (otherwise unchanged); in all other
cases the error (whose marker was necessarily already clear) or the
success payload is delivered unchanged. -/
theorem response_error_normalization (s : CoreState) (id : Nat) (e : JsError)
    (v : Option String)
    (hpend : s.pendingMessages.isPending id = true)
    (hlog : lookupId s.pendingMessages.settledLog id = none) :
    (lookupId (onResponse s
          { responseId := id, data := .error e }).pendingMessages.settledLog id =
      some (Settlement.rejected
        (if (s.disconnectAction.isSome || e.name == "SessionClosedOrMissingError"
              || e.isDisconnecting)
            && !isBrowserLaunchError e then
          DisconnectedError s.transportHost
         else { e with isDisconnecting := false }))) ∧
    (lookupId (onResponse s
          { responseId := id, data := .value v }).pendingMessages.settledLog id =
      some (Settlement.resolved v)) := by
  constructor
  · unfold onResponse
    dsimp only
    rw [(PendingMessages.reject_pending s.pendingMessages id _ hpend).1,
        lookupId_append_right _ _ _ hlog]
    simp [lookupId]
    have hb : isBrowserLaunchError
        { name := e.name, message := e.message, isDisconnecting := false,
          host := e.host, isCanceledPromiseError := e.isCanceledPromiseError } =
        isBrowserLaunchError e := rfl
    rw [hb]
  · unfold onResponse
    dsimp only
    rw [(PendingMessages.resolve_pending s.pendingMessages id v hpend).1,
        lookupId_append_right _ _ _ hlog]
    simp [lookupId]

theorem response_error_normalization_witness :
    lookupId (onResponse stateC6w
        { responseId := 2,
          data := .error
            { name := "SessionClosedOrMissingError" } }).pendingMessages.settledLog
        2 =
      some (Settlement.rejected (DisconnectedError "core6w")) ∧
    lookupId (onResponse stateC6w
        { responseId := 2,
          data := .value (some "ok") }).pendingMessages.settledLog 2 =
      some (Settlement.resolved (some "ok")) := by
  have h := response_error_normalization stateC6w 2
    { name := "SessionClosedOrMissingError" } (some "ok") rfl rfl
  exact ⟨by simpa using h.1, h.2⟩

theorem PendingMessages.delete_isPending (pm : PendingMessages) (id : Nat) :
    (pm.delete id).isPending id = false := by
  unfold PendingMessages.delete PendingMessages.isPending
  exact isPending_filter_self pm.pending id

/-- The request body on a failed send/response race: the created entry is
removed, a cancellation with a disconnect action present is swallowed, and
any other error is rethrown. -/
theorem sendRequestBody_failure (s1 : CoreState)
    (activeConnectHook activeDisconnectHook : Bool) (timeoutMs : Option Nat)
    (env : Env) (e : JsError) (hfail : env.requestOutcome = .err e) :
    ((sendRequestBody s1 activeConnectHook activeDisconnectHook timeoutMs
        env).1.pendingMessages.isPending
      (sendRequestBody s1 activeConnectHook activeDisconnectHook timeoutMs
        env).2.2.2 = false) ∧
    (((sendRequestBody s1 activeConnectHook activeDisconnectHook timeoutMs
        env).1.disconnectAction.isSome && e.isCanceledPromiseError) = true →
      (sendRequestBody s1 activeConnectHook activeDisconnectHook timeoutMs
        env).2.2.1 = JsResult.ok none) ∧
    (¬ (((sendRequestBody s1 activeConnectHook activeDisconnectHook timeoutMs
        env).1.disconnectAction.isSome && e.isCanceledPromiseError) = true) →
      (sendRequestBody s1 activeConnectHook activeDisconnectHook timeoutMs
        env).2.2.1 = JsResult.err e) := by
  unfold sendRequestBody
  dsimp only
  rw [hfail]
  dsimp only
  cases activeConnectHook <;> cases activeDisconnectHook
  all_goals simp only [Bool.false_eq_true, if_false, reduceIte]
  all_goals refine ⟨PendingMessages.delete_isPending _ _, ?_, ?_⟩
  all_goals intro h
  all_goals try simp only [Option.isSome_map'] at h ⊢
  all_goals try rw [Bool.not_eq_true] at h
  all_goals rw [h]
  all_goals simp

set_option maxHeartbeats 2000000 in
/-- C7: for every `sendRequest` call that reaches the awaited send/response
race (`hreach`: an entry with id `id` was created, i.e. the implicit
connect, when taken, did not rethrow) and whose awaited outcome fails: the
pending entry is removed from the registry; if a disconnect action is
present and the failure is a cancellation error, `sendRequest` resolves
with an empty result; any other rejection propagates to the caller. -/
theorem sendRequest_failure_path (s : CoreState) (payload : RequestPayload)
    (timeoutMs : Option Nat) (env : Env) (now : Nat) (e : JsError) (id : Nat)
    (hfail : env.requestOutcome = .err e)
    (hreach : (sendRequest s payload timeoutMs env now).2.2.2 = some id) :
    ((sendRequest s payload timeoutMs env now).1.pendingMessages.isPending
        id = false) ∧
    (((sendRequest s payload timeoutMs env now).1.disconnectAction.isSome
        && e.isCanceledPromiseError) = true →
      (sendRequest s payload timeoutMs env now).2.2.1 = JsResult.ok none) ∧
    (¬ (((sendRequest s payload timeoutMs env now).1.disconnectAction.isSome
        && e.isCanceledPromiseError) = true) →
      (sendRequest s payload timeoutMs env now).2.2.1 = JsResult.err e) := by
  unfold sendRequest at hreach ⊢
  dsimp only at hreach ⊢
  cases hsac : shouldAutoConnect s now with
  | false =>
      rw [hsac] at hreach
      simp only [Bool.false_eq_true, if_false] at hreach ⊢
      try dsimp only at hreach ⊢
      injection hreach with hid
      subst hid
      exact sendRequestBody_failure s _ _ timeoutMs env e hfail
  | true =>
      rw [hsac] at hreach
      simp only [reduceIte] at hreach ⊢
      try dsimp only at hreach ⊢
      split at hreach
      next e2 heq =>
        dsimp only at hreach
        simp at hreach
      next heq =>
        try dsimp only at hreach ⊢
        injection hreach with hid
        subst hid
        exact sendRequestBody_failure _ _ _ timeoutMs env e hfail

theorem disconnect_always_settles_witness :
    lookupId (disconnect stateC4w none envC4w 3).1.resolvables
        stateC4w.nextResolvableId = some ResolvableState.resolved ∧
    Effect.logError "Error in beforeDisconnect hook" ∈
      (disconnect stateC4w none envC4w 3).2.1 := by
  have h := disconnect_always_settles stateC4w none envC4w 3 (by rfl) (by rfl)
  exact ⟨h.1, h.2.2 _ (by rfl)⟩

theorem sendRequest_failure_path_witness :
    ((sendRequest stateC7 { command := "ping" } none envC7 0).1.pendingMessages.isPending
        1 = false) ∧
    (sendRequest stateC7 { command := "ping" } none envC7 0).2.2.1 =
      JsResult.ok none := by
  have h := sendRequest_failure_path stateC7 { command := "ping" } none envC7 0
    errC7 1 rfl (by rfl)
  exact ⟨h.1, h.2.1 (by decide)⟩

/-- C8: a `connect()` attempt whose transport connect or after-connect hook
fails rejects the action's resolvable with that failure and clears both
action fields, returning the rejected promise; a subsequent `connect()`
then starts a fresh attempt — reaching the transport connect again —
rather than joining the failed one. -/
theorem connect_failure_resets (s : CoreState)
    (options options2 : ConnectOptions) (env env2 : Env) (now now2 : Nat)
    (e : JsError)
    (hnoc : s.connectAction = none)
    (hnod : (s.disconnectAction.map (fun d => d.isCallingHook)).getD false =
      false)
    (hfresh : lookupId s.resolvables s.nextResolvableId = none)
    (hfail : env.transportConnect = .err e ∨
             (env.transportConnect = .ok () ∧
               env.afterConnectFn = some (.err e))) :
    ((connect s options env now).1.connectAction = none) ∧
    ((connect s options env now).1.disconnectAction = none) ∧
    (lookupId (connect s options env now).1.resolvables s.nextResolvableId =
      some (ResolvableState.rejected e)) ∧
    ((connect s options env now).2.2 = .promiseOf s.nextResolvableId) ∧
    (Effect.transportConnect options2.timeoutMs ∈
      (connect (connect s options env now).1 options2 env2 now2).2.1) := by
  have key : ((connect s options env now).1.connectAction = none) ∧
      ((connect s options env now).1.disconnectAction = none) ∧
      (lookupId (connect s options env now).1.resolvables s.nextResolvableId =
        some (ResolvableState.rejected e)) ∧
      ((connect s options env now).2.2 = .promiseOf s.nextResolvableId) := by
    unfold connect
    rw [hnod]
    simp only [Bool.false_eq_true, if_false]
    rw [hnoc]
    dsimp only
    cases hsar : options.shouldAutoReconnect <;>
      (dsimp only
       rcases hfail with htc | ⟨htc, hhook⟩
       · rw [htc]
         dsimp only
         refine ⟨?_, ?_, settleResolvable_lookup _ _ _ hfresh, rfl⟩
         · rw [(settleResolvable_fields _ _ _).1]
         · rw [(settleResolvable_fields _ _ _).2]
       · rw [htc]
         dsimp only
         rw [afterConnectHook_runs _ env _ rfl rfl hfresh, hhook]
         dsimp only
         refine ⟨?_, ?_, settleResolvable_lookup _ _ _ hfresh, rfl⟩
         · rw [(settleResolvable_fields _ _ _).1]
         · rw [(settleResolvable_fields _ _ _).2])
  exact ⟨key.1, key.2.1, key.2.2.1, key.2.2.2,
    connect_fresh_transportConnect_mem _ options2 env2 now2 key.1
      (by rw [key.2.1]; rfl)⟩

theorem connect_failure_resets_witness :
    ((connect stateC8 {} envC8 0).1.connectAction = none) ∧
    (lookupId (connect stateC8 {} envC8 0).1.resolvables 0 =
      some (ResolvableState.rejected errC8)) ∧
    (Effect.transportConnect none ∈
      (connect (connect stateC8 {} envC8 0).1 {} {} 1).2.1) := by
  have h := connect_failure_resets stateC8 {} {} envC8 {} 0 1 errC8
    (by rfl) (by rfl) (by rfl) (Or.inl (by rfl))
  exact ⟨h.1, h.2.2.1, h.2.2.2.2⟩

end ConnectionToCore
